import Mathlib

/-!
Verification of the setup orchestrator in utkarshg1/AutomatedSetup
(src/setup.py) against its design specification.

The script is a linear pipeline of shell-command invocations gated by
filesystem checks.  We embed it shallowly: the external world for one run is
a fixed `Env` (the result of each shell command line, the outcome of each
template download, the answers typed at each prompt, platform data), and the
observable state is a `World` (files the script itself wrote, lines printed,
shell command lines spawned, and which pipeline steps started executing).
`sys.exit` and the one exception class that crosses function boundaries
(`FileNotFoundError` raised while spawning a process) are modelled by the
result type `PyResult`.

A semantic point that matters below: every command is spawned with
`shell=True`, so when a *program* named in the command line (such as `gh`)
is absent, the shell itself still runs and exits with status 127 — no
`FileNotFoundError` reaches the Python process.  `FileNotFoundError` escapes
`subprocess.Popen` / `subprocess.run` only when the shell binary itself is
missing; that case is modelled by `Env.shellMissing`.
-/

/-- Captured result of an external command, mirroring
`subprocess.CompletedProcess`: exit status, captured standard output,
captured standard error. -/
structure CmdResult where
  returncode : Int
  stdout : String
  stderr : String
deriving DecidableEq

/-- The seven pipeline steps of `main`.  Each step function records its tag
when it starts executing, so the `World.steps` trace says which steps ran
and in which order. -/
inductive SetupStep where
  | checkTool
  | gitConfig
  | initRepo
  | basicFiles
  | auth
  | createRepo
  | venv
deriving DecidableEq

/-- The external world, fixed for one run of the script. -/
structure Env where
  /-- The shell binary itself is missing, so spawning any command raises
  `FileNotFoundError` (`shell=True` means this is the only way that
  exception can occur). -/
  shellMissing : Bool
  /-- Outcome of executing a command line through the shell. -/
  run : String → CmdResult
  /-- Outcome of `urlretrieve url filename`: the downloaded content, or
  `none` when it raises. -/
  download : String → String → Option String
  /-- Answer typed at an interactive prompt. -/
  input : String → String
  /-- `os.path.basename(os.getcwd())`. -/
  cwdBase : String
  /-- `os.getcwd()`. -/
  cwd : String
  /-- `sys.platform == "win32"`. -/
  isWin : Bool

/-- Observable state threaded through the run: files written by the script
itself (external commands' filesystem effects are outside the model),
printed lines, spawned command lines, and started steps. -/
structure World where
  fs : String → Option String
  printed : List String
  cmdsRun : List String
  steps : List SetupStep

/-- `print(s)`. -/
def emit (w : World) (s : String) : World :=
  { w with printed := w.printed ++ [s] }

/-- Record that a pipeline step started executing. -/
def logStep (w : World) (t : SetupStep) : World :=
  { w with steps := w.steps ++ [t] }

/-- Write a file (creating or overwriting it). -/
def setFile (w : World) (name content : String) : World :=
  { w with fs := fun m => if m = name then some content else w.fs m }

/-- Outcome of running a fragment of the script: normal return, process
termination via `sys.exit code`, or a propagating `FileNotFoundError`. -/
inductive PyResult (α : Type) where
  | ok : World → α → PyResult α
  | exit : World → Int → PyResult α
  | exn : World → PyResult α

/-- The world at the end of the fragment, whatever the outcome. -/
def worldOf {α : Type} : PyResult α → World
  | .ok w _ => w
  | .exit w _ => w
  | .exn w => w

/-- Step trace at the end of the fragment. -/
def stepsOf {α : Type} (r : PyResult α) : List SetupStep :=
  (worldOf r).steps

/-- Spawned command lines at the end of the fragment. -/
def cmdsOf {α : Type} (r : PyResult α) : List String :=
  (worldOf r).cmdsRun

/-- The value a fragment returned to its caller (`none` when it did not
return normally). -/
def returnedValue {α : Type} : PyResult α → Option α
  | .ok _ a => some a
  | _ => none

/-- The `sys.exit` status, when the fragment terminated the process. -/
def pexit {α : Type} : PyResult α → Option Int
  | .exit _ c => some c
  | _ => none

/-- Exit status of the whole process given the outcome of `main`: 0 on
normal completion, the `sys.exit` code otherwise, and 1 when an uncaught
exception aborts the interpreter. -/
def processExit {α : Type} : PyResult α → Int
  | .ok _ _ => 0
  | .exit _ c => c
  | .exn _ => 1

/-- Sequencing: run the continuation only on normal return; `sys.exit` and
exceptions propagate. -/
def pbind {α β : Type} : PyResult α → (World → α → PyResult β) → PyResult β
  | .ok w a, f => f w a
  | .exit w c, _ => .exit w c
  | .exn w, _ => .exn w

/-- `try: body except E: handler` for the one modelled exception.  In
`check_gh_installed` the handled class is `FileNotFoundError` and in
`create_github_repo` it is `Exception`; both catch exactly the `.exn`
outcome, because `FileNotFoundError` is the only modelled exception and
`SystemExit` (from `sys.exit`) is not a subclass of `Exception`. -/
def tryExcept {α : Type} (body : PyResult α) (handler : World → PyResult α) : PyResult α :=
  match body with
  | .exn w => handler w
  | r => r

/-- Python `str.strip()` with no argument: remove leading and trailing
whitespace.  Defined over the character list so that the kernel can
evaluate it (the core `String.trim` does not reduce in the kernel). -/
def pyStrip (s : String) : String :=
  ⟨((s.data.dropWhile Char.isWhitespace).reverse.dropWhile Char.isWhitespace).reverse⟩

/-- Python `str.lower()`: lowercase every character.  Defined over the
character list so that the kernel can evaluate it. -/
def pyLower (s : String) : String :=
  ⟨s.data.map Char.toLower⟩

/-- Python would raise `AttributeError` on `None.stdout`; the callers below
only read fields of results obtained with `live_output=False`, where the
returned value is always `some`, so the default is unreachable. -/
def resOf (r : Option CmdResult) : CmdResult :=
  r.getD ⟨0, "", ""⟩

/-- `run_command(command, check, live_output)` of src/setup.py lines 7-35.
With `live_output` the output is streamed and nothing is returned (Python
falls off the end of the branch, returning `None`); a nonzero status with
`check` set calls `sys.exit(returncode)`.  Without `live_output` the output
is captured; `subprocess.run(check=True)` raises `CalledProcessError` on a
nonzero status, which the `except` clause turns into printing the captured
stderr and `sys.exit(1)`.  A missing shell raises `FileNotFoundError`,
which is not `CalledProcessError` and so propagates to the caller. -/
def run_command (env : Env) (w : World) (command : String)
    (check : Bool) (live_output : Bool) : PyResult (Option CmdResult) :=
  if env.shellMissing then
    PyResult.exn w
  else
    let r := env.run command
    let w := { w with cmdsRun := w.cmdsRun ++ [command] }
    if live_output then
      if r.returncode ≠ 0 ∧ check = true then
        PyResult.exit w r.returncode
      else
        PyResult.ok w none
    else
      if check = true ∧ r.returncode ≠ 0 then
        PyResult.exit (emit w ("Error: " ++ r.stderr)) 1
      else
        PyResult.ok w (some r)

@[simp] theorem emit_fs (w : World) (s : String) : (emit w s).fs = w.fs := rfl

@[simp] theorem emit_steps (w : World) (s : String) : (emit w s).steps = w.steps := rfl

@[simp] theorem emit_cmds (w : World) (s : String) : (emit w s).cmdsRun = w.cmdsRun := rfl

@[simp] theorem logStep_fs (w : World) (t : SetupStep) : (logStep w t).fs = w.fs := rfl

@[simp] theorem logStep_steps (w : World) (t : SetupStep) :
    (logStep w t).steps = w.steps ++ [t] := rfl

@[simp] theorem logStep_cmds (w : World) (t : SetupStep) :
    (logStep w t).cmdsRun = w.cmdsRun := rfl

@[simp] theorem logStep_printed (w : World) (t : SetupStep) :
    (logStep w t).printed = w.printed := rfl

@[simp] theorem setFile_steps (w : World) (n c : String) :
    (setFile w n c).steps = w.steps := rfl

@[simp] theorem setFile_cmds (w : World) (n c : String) :
    (setFile w n c).cmdsRun = w.cmdsRun := rfl

@[simp] theorem worldOf_ok {α : Type} (w : World) (a : α) :
    worldOf (PyResult.ok w a) = w := rfl

@[simp] theorem worldOf_exit {α : Type} (w : World) (c : Int) :
    worldOf (PyResult.exit (α := α) w c) = w := rfl

@[simp] theorem worldOf_exn {α : Type} (w : World) :
    worldOf (PyResult.exn (α := α) w) = w := rfl

@[simp] theorem stepsOf_ok {α : Type} (w : World) (a : α) :
    stepsOf (PyResult.ok w a) = w.steps := rfl

@[simp] theorem stepsOf_exit {α : Type} (w : World) (c : Int) :
    stepsOf (PyResult.exit (α := α) w c) = w.steps := rfl

@[simp] theorem stepsOf_exn {α : Type} (w : World) :
    stepsOf (PyResult.exn (α := α) w) = w.steps := rfl

@[simp] theorem pbind_ok {α β : Type} (w : World) (a : α) (f : World → α → PyResult β) :
    pbind (PyResult.ok w a) f = f w a := rfl

@[simp] theorem pbind_exit {α β : Type} (w : World) (c : Int) (f : World → α → PyResult β) :
    pbind (PyResult.exit w c) f = PyResult.exit w c := rfl

@[simp] theorem pbind_exn {α β : Type} (w : World) (f : World → α → PyResult β) :
    pbind (PyResult.exn w) f = PyResult.exn w := rfl

@[simp] theorem tryExcept_ok {α : Type} (w : World) (a : α) (h : World → PyResult α) :
    tryExcept (PyResult.ok w a) h = PyResult.ok w a := rfl

@[simp] theorem tryExcept_exit {α : Type} (w : World) (c : Int) (h : World → PyResult α) :
    tryExcept (PyResult.exit w c) h = PyResult.exit w c := rfl

@[simp] theorem tryExcept_exn {α : Type} (w : World) (h : World → PyResult α) :
    tryExcept (PyResult.exn w) h = h w := rfl

/-- Running a command never touches the step trace. -/
theorem run_command_steps (env : Env) (w : World) (c : String) (k l : Bool) :
    stepsOf (run_command env w c k l) = w.steps := by
  unfold run_command
  split
  · rfl
  · dsimp only
    split
    · split <;> rfl
    · split <;> rfl

/-- `check_gh_installed()` of src/setup.py lines 38-45: run `gh --version`
(with `check=False`, captured) and return `True`; the `except` clause
handles `FileNotFoundError` by printing an install hint and returning
`False`. -/
def check_gh_installed (env : Env) (w : World) : PyResult Bool :=
  let w := logStep w .checkTool
  tryExcept
    (pbind (run_command env w "gh --version" false false) fun w _ =>
      PyResult.ok w true)
    (fun w =>
      PyResult.ok (emit w "GitHub CLI not installed. Install from cli.github.com") false)

/-- `github_auth()` of src/setup.py lines 48-55: probe `gh auth status`
(captured, `check=False`); on a nonzero status run the interactive login
with live output, otherwise report the authentication as verified. -/
def github_auth (env : Env) (w : World) : PyResult Unit :=
  let w := logStep w .auth
  pbind (run_command env w "gh auth status" false false) fun w r =>
  if (resOf r).returncode ≠ 0 then
    pbind (run_command env (emit w "Authenticating with GitHub...")
        "gh auth login --web -h github.com" true true) fun w _ =>
      PyResult.ok w ()
  else
    PyResult.ok (emit w "GitHub authentication verified") ()

/-- `create_github_repo(repo_name, visibility)` of src/setup.py lines
58-81: stage and commit, create the remote repository and push, query the
authenticated login, print and return the repository URL.  The
`except Exception` clause prints a failure message and calls `sys.exit(1)`;
`SystemExit` raised inside `run_command` is not an `Exception` and passes
through it. -/
def create_github_repo (env : Env) (w : World) (repo_name visibility : String) :
    PyResult String :=
  let w := logStep w .createRepo
  let w := emit w ("Creating " ++ visibility ++ " repository " ++ repo_name ++ "...")
  tryExcept
    (pbind (run_command env w "git add ." true false) fun w _ =>
     pbind (run_command env w "git commit -m \"Initial commit\"" true false) fun w _ =>
     pbind (run_command env w
         ("gh repo create " ++ repo_name ++ " --" ++ visibility ++
          " --source=. --remote=origin --push") true false) fun w _ =>
     pbind (run_command env w "gh api user -q .login" true false) fun w r =>
     let github_username := pyStrip (resOf r).stdout
     let url := "https://github.com/" ++ github_username ++ "/" ++ repo_name
     PyResult.ok (emit w ("GitHub repository created: " ++ url)) url)
    (fun w => PyResult.exit (emit w "Failed to create repository") 1)

/-- `setup_git_config()` of src/setup.py lines 84-93: for each of
`user.name` and `user.email`, read the current value (captured,
`check=False`); when the stripped stdout is empty, prompt and set it. -/
def setup_git_config (env : Env) (w : World) : PyResult Unit :=
  let w := logStep w .gitConfig
  let w := emit w "Checking Git configuration..."
  pbind (run_command env w "git config user.name" false false) fun w r =>
  pbind (if pyStrip (resOf r).stdout = "" then
           let username := pyStrip (env.input "Enter your GitHub username: ")
           run_command env w ("git config user.name \"" ++ username ++ "\"") true false
         else PyResult.ok w r) fun w _ =>
  pbind (run_command env w "git config user.email" false false) fun w r =>
  pbind (if pyStrip (resOf r).stdout = "" then
           let email := pyStrip (env.input "Enter your GitHub email: ")
           run_command env w ("git config user.email \"" ++ email ++ "\"") true false
         else PyResult.ok w r) fun w _ =>
  PyResult.ok w ()

/-- `initialize_local_repo()` of src/setup.py lines 96-104: when `.git`
exists, report the repository as already present and return; otherwise run
`git init -b main`. -/
def initialize_local_repo (env : Env) (w : World) : PyResult Unit :=
  let w := logStep w .initRepo
  if (w.fs ".git").isSome then
    PyResult.ok (emit w "Git repository already exists") ()
  else
    pbind (run_command env (emit w "Initializing local Git repository...")
        "git init -b main" true false) fun w _ =>
      PyResult.ok (emit w "Local Git repository initialized") ()

/-- `download_files(url, filename)` of src/setup.py lines 107-113:
`urlretrieve` the file; `except Exception` turns any raised exception into
a printed failure message, and the function returns normally either way. -/
def download_files (env : Env) (w : World) (url filename : String) : PyResult Unit :=
  match env.download url filename with
  | some content =>
      PyResult.ok (emit (setFile w filename content)
        ("File " ++ filename ++ " downloaded successfully")) ()
  | none =>
      PyResult.ok (emit w ("Failed to download " ++ filename)) ()

/-- The Python.gitignore template URL of src/setup.py line 120. -/
def gitignoreUrl : String :=
  "https://raw.githubusercontent.com/github/gitignore/refs/heads/main/Python.gitignore"

/-- The Apache LICENSE template URL of src/setup.py lines 124-126. -/
def licenseUrl : String :=
  "https://raw.githubusercontent.com/apache/.github/refs/heads/main/LICENSE"

/-- `create_basic_files()` of src/setup.py lines 115-133: download
`.gitignore` and `LICENSE` templates and write a stub `README.md`, each
only when the file does not already exist. -/
def create_basic_files (env : Env) (w : World) : PyResult Unit :=
  let w := logStep w .basicFiles
  let w := emit w "Creating basic project structure..."
  pbind (if (w.fs ".gitignore").isNone then
           download_files env w gitignoreUrl ".gitignore"
         else PyResult.ok w ()) fun w _ =>
  pbind (if (w.fs "LICENSE").isNone then
           download_files env w licenseUrl "LICENSE"
         else PyResult.ok w ()) fun w _ =>
  if (w.fs "README.md").isNone then
    let repo_name := env.cwdBase
    PyResult.ok (emit (setFile w "README.md"
      ("# " ++ repo_name ++ "\n\nProject description\n")) "Created README.md") ()
  else
    PyResult.ok w ()

/-- `setup_virtualenv()` of src/setup.py lines 136-176: create `venv` when
absent, upgrade pip inside the activated environment (live output), and
install `requirements.txt` when present (live output). -/
def setup_virtualenv (env : Env) (w : World) : PyResult Unit :=
  let w := logStep w .venv
  pbind (if (w.fs "venv").isNone then
           pbind (run_command env (emit w "Creating virtual environment...")
               "python -m venv venv" true false) fun w _ =>
             PyResult.ok (emit w "Virtual environment created") ()
         else PyResult.ok (emit w "Virtual environment already exists") ()) fun w _ =>
  let activate_cmd :=
    if env.isWin then "call venv\\Scripts\\activate.bat" else "source venv/bin/activate"
  pbind (run_command env (emit w "Upgrading pip...")
      (activate_cmd ++ " && python -m pip install --upgrade pip") true true) fun w _ =>
  let w := emit w "pip upgraded"
  pbind (if (w.fs "requirements.txt").isSome then
           pbind (run_command env (emit w "Installing dependencies...")
               (activate_cmd ++ " && pip install -r requirements.txt") true true) fun w _ =>
             PyResult.ok (emit w "Dependencies installed") ()
         else
           PyResult.ok (emit w "No requirements.txt found - skipping dependency installation") ())
    fun w _ =>
  PyResult.ok (emit w "Activate virtual environment with the printed command") ()

/-- The visibility normalisation of src/setup.py lines 185-188: strip and
lowercase the raw answer, keep it when it is `public` or `private`, and
default to `public` otherwise. -/
def effectiveVisibility (raw : String) : String :=
  let visibility := pyLower (pyStrip raw)
  if visibility ∈ ["public", "private"] then visibility else "public"

namespace Setup

/-- `main()` of src/setup.py lines 179-211: prompt for the repository name
and visibility, then run the fixed pipeline — tool check (fatal when it
reports failure), identity configuration, local initialization, boilerplate
files, authentication, remote creation and push, virtual environment.
(Lean reserves the top-level name `main` for executables, hence the
namespace.) -/
def main (env : Env) (w : World) : PyResult Unit :=
  let w := emit w "Python Project Automation"
  let w := emit w "Project Setup Wizard - Current Directory"
  let repo_name := pyStrip (env.input "Enter GitHub repository name: ")
  let visibility := effectiveVisibility (env.input "Visibility [public/private] (default: public): ")
  pbind (check_gh_installed env w) fun w ok =>
  if ok = false then
    PyResult.exit w 1
  else
  pbind (setup_git_config env w) fun w _ =>
  pbind (initialize_local_repo env w) fun w _ =>
  pbind (create_basic_files env w) fun w _ =>
  pbind (github_auth env w) fun w _ =>
  pbind (create_github_repo env w repo_name visibility) fun w repo_url =>
  pbind (setup_virtualenv env w) fun w _ =>
  PyResult.ok
    (emit (emit (emit w "Setup complete!") ("Remote URL: " ++ repo_url))
      ("Local directory: " ++ env.cwd)) ()

end Setup

/-! ### Concrete runs used as witnesses and counterexamples -/

/-- A world with no files, no output, no spawned commands. -/
def emptyWorld : World := ⟨fun _ => none, [], [], []⟩

/-- A world in which the repository, boilerplate files and `venv` already
exist. -/
def fullWorld : World :=
  ⟨fun n =>
    if n ∈ [".git", ".gitignore", "LICENSE", "README.md", "venv"] then some "present"
    else none,
   [], [], []⟩

/-- A run in which every external command succeeds with nonempty output and
every download succeeds. -/
def okEnv : Env where
  shellMissing := false
  run := fun _ => ⟨0, "ok\n", ""⟩
  download := fun _ _ => some "template"
  input := fun _ => "demo"
  cwdBase := "AutomatedSetup"
  cwd := "/home/user/AutomatedSetup"
  isWin := false

/-- A run in which every external command fails with status 2 and every
download fails. -/
def failEnv : Env where
  shellMissing := false
  run := fun _ => ⟨2, "", "boom"⟩
  download := fun _ _ => none
  input := fun _ => "demo"
  cwdBase := "AutomatedSetup"
  cwd := "/home/user/AutomatedSetup"
  isWin := false

/-- A run in which `git add .` fails with status 5 and every other command
succeeds. -/
def gitAddFailEnv : Env where
  shellMissing := false
  run := fun c => if c = "git add ." then ⟨5, "", "fatal: unable to add"⟩ else ⟨0, "ok\n", ""⟩
  download := fun _ _ => some "template"
  input := fun _ => "demo"
  cwdBase := "AutomatedSetup"
  cwd := "/home/user/AutomatedSetup"
  isWin := false

/-- A run on a machine where the GitHub CLI is not installed but the shell
is: under `shell=True` every `gh ...` command line exits 127 with a
command-not-found message from the shell, and no `FileNotFoundError` is
raised.  Git is configured, downloads fail (no network is needed to show
the claim). -/
def ghMissingEnv : Env where
  shellMissing := false
  run := fun c =>
    if c = "gh --version" then ⟨127, "", "sh: gh: command not found"⟩
    else if c = "gh auth status" then ⟨127, "", "sh: gh: command not found"⟩
    else if c = "gh auth login --web -h github.com" then ⟨127, "", "sh: gh: command not found"⟩
    else if c = "git config user.name" then ⟨0, "Utkarsh Gaikwad\n", ""⟩
    else if c = "git config user.email" then ⟨0, "utkarsh@example.com\n", ""⟩
    else ⟨0, "", ""⟩
  download := fun _ _ => none
  input := fun _ => ""
  cwdBase := "AutomatedSetup"
  cwd := "/home/user/AutomatedSetup"
  isWin := false

/-! ### Claims about the visibility normalisation -/

/-- Claim C2: for every visibility answer whose stripped, lowercased form
is neither `public` nor `private`, the effective visibility used for
repository creation is `public`. -/
theorem claim_C2_visibility_default (s : String)
    (h : pyLower (pyStrip s) ∉ (["public", "private"] : List String)) :
    effectiveVisibility s = "public" := by
  unfold effectiveVisibility
  exact if_neg h

/-- Witness for claim C2 at the concrete answer `" Internal "`. -/
theorem claim_C2_witness :
    pyLower (pyStrip " Internal ") ∉ (["public", "private"] : List String) ∧
    effectiveVisibility " Internal " = "public" :=
  ⟨by decide, claim_C2_visibility_default " Internal " (by decide)⟩

/-- Claim C10: the membership test runs on the stripped, lowercased answer,
so every answer that normalises to `private` selects `private`, not the
`public` default. -/
theorem claim_C10_visibility_case_insensitive (s : String)
    (h : pyLower (pyStrip s) = "private") :
    effectiveVisibility s = "private" := by
  unfold effectiveVisibility
  rw [h]
  decide

/-- Witness for claim C10 at the concrete answer `" PRIVATE "`. -/
theorem claim_C10_witness :
    pyLower (pyStrip " PRIVATE ") = "private" ∧
    effectiveVisibility " PRIVATE " = "private" :=
  ⟨by decide, claim_C10_visibility_case_insensitive " PRIVATE " (by decide)⟩

/-! ### Claims about the command runner -/

/-- Counterexample to claim C5 as stated: with live output requested, a
command that exits zero makes `run_command` return `None` — the caller
receives no captured result object. -/
theorem claim_C5_counterexample :
    (okEnv.run "gh auth login --web -h github.com").returncode = 0 ∧
    returnedValue
      (run_command okEnv emptyWorld "gh auth login --web -h github.com" true true)
      = some none := by
  decide

/-- Claim C5 amended: for every command whose exit status is zero,
`run_command` returns normally, with the captured result object (exit
status, standard output, standard error) when live output was not
requested, and with `None` when it was. -/
theorem claim_C5_success_returns_result (env : Env) (w : World) (cmd : String) (check : Bool)
    (h1 : env.shellMissing = false) (h2 : (env.run cmd).returncode = 0) :
    returnedValue (run_command env w cmd check false) = some (some (env.run cmd)) ∧
    returnedValue (run_command env w cmd check true) = some none := by
  unfold run_command
  simp [h1, h2, returnedValue]

/-- Witness for the amended claim C5 at a concrete successful command. -/
theorem claim_C5_witness :
    okEnv.shellMissing = false ∧
    (okEnv.run "gh api user -q .login").returncode = 0 ∧
    returnedValue (run_command okEnv emptyWorld "gh api user -q .login" true false)
      = some (some (okEnv.run "gh api user -q .login")) :=
  ⟨rfl, by decide,
    (claim_C5_success_returns_result okEnv emptyWorld "gh api user -q .login" true rfl
      (by decide)).1⟩

/-- Counterexample to claim C6 as stated: with live output and `check`
set, a command exiting 2 terminates the process with status 2 but no
captured error text is printed (the Popen branch streams output and calls
`sys.exit(returncode)` without printing). -/
theorem claim_C6_counterexample :
    (failEnv.run "gh auth login --web -h github.com").returncode = 2 ∧
    pexit (run_command failEnv emptyWorld "gh auth login --web -h github.com" true true)
      = some 2 ∧
    (worldOf (run_command failEnv emptyWorld "gh auth login --web -h github.com" true true)).printed
      = [] := by
  decide

/-- Claim C6 amended: with `check` set and a nonzero exit status,
`run_command` never returns to its caller; in capture mode it prints the
captured error text and exits with status 1, while in live mode it exits
with the command's own status without printing captured error text. -/
theorem claim_C6_check_failure_never_returns (env : Env) (w : World) (cmd : String)
    (h1 : env.shellMissing = false) (h2 : (env.run cmd).returncode ≠ 0) :
    returnedValue (run_command env w cmd true false) = none ∧
    pexit (run_command env w cmd true false) = some 1 ∧
    (worldOf (run_command env w cmd true false)).printed
      = w.printed ++ ["Error: " ++ (env.run cmd).stderr] ∧
    returnedValue (run_command env w cmd true true) = none ∧
    pexit (run_command env w cmd true true) = some (env.run cmd).returncode ∧
    (worldOf (run_command env w cmd true true)).printed = w.printed := by
  unfold run_command
  simp [h1, h2, returnedValue, pexit, emit]

/-- Witness for the amended claim C6 at a concrete failing command. -/
theorem claim_C6_witness :
    failEnv.shellMissing = false ∧
    (failEnv.run "git add .").returncode ≠ 0 ∧
    pexit (run_command failEnv emptyWorld "git add ." true false) = some 1 :=
  ⟨rfl, by decide,
    (claim_C6_check_failure_never_returns failEnv emptyWorld "git add ." rfl
      (by decide)).2.1⟩

/-! ### Claims about exit statuses and the tool check -/

/-- Counterexample to claim C7 as stated: when `git add .` fails with
status 5 inside `create_github_repo` (a captured command), the process
exits with status 1, not with the failing command's own status. -/
theorem claim_C7_counterexample :
    (gitAddFailEnv.run "git add .").returncode = 5 ∧
    processExit (Setup.main gitAddFailEnv fullWorld) = 1 ∧
    (1 : Int) ≠ 5 := by
  decide

/-- Claim C7 amended: a fatal failure of a live-output command exits with
the failing command's own status; a fatal failure of a captured command
exits with status 1 regardless of the command's status; on full completion
of `main` the process exit status is 0. -/
theorem claim_C7_exit_status (env : Env) (w : World) (cmd : String)
    (h1 : env.shellMissing = false) (h2 : (env.run cmd).returncode ≠ 0) :
    processExit (run_command env w cmd true true) = (env.run cmd).returncode ∧
    processExit (run_command env w cmd true false) = 1 ∧
    (∀ (w2 : World) (u : Unit),
      Setup.main env w = PyResult.ok w2 u → processExit (Setup.main env w) = 0) := by
  refine ⟨?_, ?_, ?_⟩
  · unfold run_command
    simp [h1, h2, processExit]
  · unfold run_command
    simp [h1, h2, processExit]
  · intro w2 u h
    rw [h]
    rfl

/-- Witness for the amended claim C7 at a concrete failing command. -/
theorem claim_C7_witness :
    failEnv.shellMissing = false ∧
    (failEnv.run "git init -b main").returncode ≠ 0 ∧
    processExit (run_command failEnv emptyWorld "git init -b main" true false) = 1 :=
  ⟨rfl, by decide,
    (claim_C7_exit_status failEnv emptyWorld "git init -b main" rfl (by decide)).2.1⟩

/-- Claim C1 is refuted by the code: on a machine where the GitHub CLI is
absent but the shell is present, `gh --version` run with `shell=True`
exits 127 without raising `FileNotFoundError`, so `check_gh_installed`
returns `True` and `main` proceeds through identity configuration, local
initialization and boilerplate creation — writing `README.md` — before it
finally dies with status 127 at the authentication step, rather than
exiting nonzero before `setup_git_config` as the claim requires. -/
theorem claim_C1_gh_missing_not_fatal_before_setup :
    (ghMissingEnv.run "gh --version").returncode = 127 ∧
    returnedValue (check_gh_installed ghMissingEnv emptyWorld) = some true ∧
    stepsOf (Setup.main ghMissingEnv emptyWorld)
      = [SetupStep.checkTool, SetupStep.gitConfig, SetupStep.initRepo,
         SetupStep.basicFiles, SetupStep.auth] ∧
    (worldOf (Setup.main ghMissingEnv emptyWorld)).fs "README.md"
      = some "# AutomatedSetup\n\nProject description\n" ∧
    processExit (Setup.main ghMissingEnv emptyWorld) = 127 := by
  decide

/-! ### Claims about the idempotent steps -/

/-- Claim C4: when `.git` exists, `initialize_local_repo` only reports the
repository as already existing — no command is spawned (the returned world
is exactly the input world plus the step tag and the report line); when
`.git` is absent, it spawns `git init -b main`. -/
theorem claim_C4_init_idempotent (env : Env) (w : World) :
    ((w.fs ".git").isSome = true →
      initialize_local_repo env w
        = PyResult.ok (emit (logStep w SetupStep.initRepo) "Git repository already exists") ()) ∧
    ((w.fs ".git") = none → env.shellMissing = false →
      cmdsOf (initialize_local_repo env w) = w.cmdsRun ++ ["git init -b main"]) := by
  constructor
  · intro h
    unfold initialize_local_repo
    simp [h]
  · intro h hs
    unfold initialize_local_repo run_command
    simp only [logStep_fs, emit_fs, h, Option.isSome_none, Bool.false_eq_true, if_false,
      hs, emit_cmds, logStep_cmds]
    split <;> simp [cmdsOf, emit, logStep]

/-- Witness for claim C4: with `.git` present nothing is spawned and the
already-exists line is reported; with `.git` absent `git init -b main` is
spawned. -/
theorem claim_C4_witness :
    (fullWorld.fs ".git").isSome = true ∧
    initialize_local_repo okEnv fullWorld
      = PyResult.ok (emit (logStep fullWorld SetupStep.initRepo) "Git repository already exists") () ∧
    emptyWorld.fs ".git" = none ∧
    okEnv.shellMissing = false ∧
    cmdsOf (initialize_local_repo okEnv emptyWorld) = emptyWorld.cmdsRun ++ ["git init -b main"] :=
  ⟨by decide,
   (claim_C4_init_idempotent okEnv fullWorld).1 (by decide),
   rfl, rfl,
   (claim_C4_init_idempotent okEnv emptyWorld).2 rfl rfl⟩

@[simp] theorem setFile_fs (w : World) (n c m : String) :
    (setFile w n c).fs m = if m = n then some c else w.fs m := rfl

/-- Claim C3: `create_basic_files` never overwrites an existing
`.gitignore` or `README.md` — whatever either file contains beforehand, it
contains afterwards, on any run (so a second run of setup leaves them
unchanged). -/
theorem claim_C3_no_overwrite (env : Env) (w : World) (c : String) :
    (w.fs ".gitignore" = some c →
      (worldOf (create_basic_files env w)).fs ".gitignore" = some c) ∧
    (w.fs "README.md" = some c →
      (worldOf (create_basic_files env w)).fs "README.md" = some c) := by
  unfold create_basic_files download_files
  constructor
  · intro h
    by_cases hL : w.fs "LICENSE" = none
    all_goals by_cases hR : w.fs "README.md" = none
    all_goals cases hdl : env.download licenseUrl "LICENSE"
    all_goals simp [Option.isNone_iff_eq_none, h, hL, hR, hdl, emit, logStep]
  · intro h
    by_cases hG : w.fs ".gitignore" = none
    all_goals by_cases hL : w.fs "LICENSE" = none
    all_goals cases hdg : env.download gitignoreUrl ".gitignore"
    all_goals cases hdl : env.download licenseUrl "LICENSE"
    all_goals simp [Option.isNone_iff_eq_none, h, hG, hL, hdg, hdl, emit, logStep]

/-- Witness for claim C3: on a world where both files exist with content
`present`, a (second) run keeps them intact. -/
theorem claim_C3_witness :
    fullWorld.fs ".gitignore" = some "present" ∧
    fullWorld.fs "README.md" = some "present" ∧
    (worldOf (create_basic_files okEnv fullWorld)).fs ".gitignore" = some "present" ∧
    (worldOf (create_basic_files okEnv fullWorld)).fs "README.md" = some "present" :=
  ⟨by decide, by decide,
   (claim_C3_no_overwrite okEnv fullWorld "present").1 (by decide),
   (claim_C3_no_overwrite okEnv fullWorld "present").2 (by decide)⟩

/-- Claim C9: a failing template download is reported and non-fatal:
`download_files` returns normally with only the failure line printed and
the filesystem untouched, and `create_basic_files` always returns normally
to `main`, so the run continues with the subsequent steps. -/
theorem claim_C9_download_failure_nonfatal (env : Env) (w : World) (url filename : String)
    (h : env.download url filename = none) :
    download_files env w url filename
      = PyResult.ok (emit w ("Failed to download " ++ filename)) () ∧
    ∀ w2 : World, ∃ w3 : World, create_basic_files env w2 = PyResult.ok w3 () := by
  constructor
  · unfold download_files
    rw [h]
  · intro w2
    unfold create_basic_files download_files
    by_cases hG : w2.fs ".gitignore" = none
    all_goals by_cases hL : w2.fs "LICENSE" = none
    all_goals by_cases hR : w2.fs "README.md" = none
    all_goals cases hdg : env.download gitignoreUrl ".gitignore"
    all_goals cases hdl : env.download licenseUrl "LICENSE"
    all_goals simp [Option.isNone_iff_eq_none, hG, hL, hR, hdg, hdl, emit, logStep]

/-- Witness for claim C9 at a concrete failing download. -/
theorem claim_C9_witness :
    failEnv.download gitignoreUrl ".gitignore" = none ∧
    download_files failEnv emptyWorld gitignoreUrl ".gitignore"
      = PyResult.ok (emit emptyWorld ("Failed to download " ++ ".gitignore")) () :=
  ⟨rfl,
   (claim_C9_download_failure_nonfatal failEnv emptyWorld gitignoreUrl ".gitignore" rfl).1⟩

/-! ### Step ordering -/

/-- The fixed pipeline order of src/setup.py lines 190-206. -/
def stepOrder : List SetupStep :=
  [.checkTool, .gitConfig, .initRepo, .basicFiles, .auth, .createRepo, .venv]

theorem stepsOf_pbind {α β : Type} (a : PyResult α) (f : World → α → PyResult β)
    (s : List SetupStep) (ha : stepsOf a = s)
    (hf : ∀ w x, a = PyResult.ok w x → w.steps = s → stepsOf (f w x) = s) :
    stepsOf (pbind a f) = s := by
  cases a with
  | ok w x => exact hf w x rfl (by simpa using ha)
  | exit w c => simpa using ha
  | exn w => simpa using ha

theorem stepsOf_tryExcept {α : Type} (a : PyResult α) (g : World → PyResult α)
    (s : List SetupStep) (ha : stepsOf a = s)
    (hg : ∀ w, a = PyResult.exn w → w.steps = s → stepsOf (g w) = s) :
    stepsOf (tryExcept a g) = s := by
  cases a with
  | ok w x => simpa using ha
  | exit w c => simpa using ha
  | exn w => exact hg w rfl (by simpa using ha)

theorem check_gh_installed_steps (env : Env) (w : World) :
    stepsOf (check_gh_installed env w) = w.steps ++ [SetupStep.checkTool] := by
  unfold check_gh_installed
  refine stepsOf_tryExcept _ _ _ ?_ ?_
  · refine stepsOf_pbind _ _ _ (by simp [run_command_steps]) ?_
    intro w1 x _ h1
    simpa using h1
  · intro w1 _ h1
    simpa using h1

theorem setup_git_config_steps (env : Env) (w : World) :
    stepsOf (setup_git_config env w) = w.steps ++ [SetupStep.gitConfig] := by
  unfold setup_git_config
  refine stepsOf_pbind _ _ _ (by simp [run_command_steps]) ?_
  intro w1 r1 _ h1
  refine stepsOf_pbind _ _ _ ?_ ?_
  · split
    · simp [run_command_steps, h1]
    · simpa using h1
  · intro w2 r2 _ h2
    refine stepsOf_pbind _ _ _ (by simp [run_command_steps, h2]) ?_
    intro w3 r3 _ h3
    refine stepsOf_pbind _ _ _ ?_ ?_
    · split
      · simp [run_command_steps, h3]
      · simpa using h3
    · intro w4 r4 _ h4
      simpa using h4

theorem initialize_local_repo_steps (env : Env) (w : World) :
    stepsOf (initialize_local_repo env w) = w.steps ++ [SetupStep.initRepo] := by
  unfold initialize_local_repo
  by_cases h : (w.fs ".git").isSome = true
  · simp [h]
  · simp only [logStep_fs, h, if_false, Bool.false_eq_true]
    refine stepsOf_pbind _ _ _ (by simp [run_command_steps]) ?_
    intro w1 x _ h1
    simpa using h1

theorem download_files_steps (env : Env) (w : World) (url filename : String) :
    stepsOf (download_files env w url filename) = w.steps := by
  unfold download_files
  cases h : env.download url filename <;> simp [h]

theorem create_basic_files_steps (env : Env) (w : World) :
    stepsOf (create_basic_files env w) = w.steps ++ [SetupStep.basicFiles] := by
  unfold create_basic_files
  refine stepsOf_pbind _ _ _ ?_ ?_
  · split
    · simp [download_files_steps]
    · simp
  · intro w1 x _ h1
    refine stepsOf_pbind _ _ _ ?_ ?_
    · split
      · simp [download_files_steps, h1]
      · simpa using h1
    · intro w2 y _ h2
      split
      · simpa using h2
      · simpa using h2

theorem github_auth_steps (env : Env) (w : World) :
    stepsOf (github_auth env w) = w.steps ++ [SetupStep.auth] := by
  unfold github_auth
  refine stepsOf_pbind _ _ _ (by simp [run_command_steps]) ?_
  intro w1 r1 _ h1
  split
  · refine stepsOf_pbind _ _ _ (by simp [run_command_steps, h1]) ?_
    intro w2 x _ h2
    simpa using h2
  · simpa using h1

theorem create_github_repo_steps (env : Env) (w : World) (rn vis : String) :
    stepsOf (create_github_repo env w rn vis) = w.steps ++ [SetupStep.createRepo] := by
  unfold create_github_repo
  refine stepsOf_tryExcept _ _ _ ?_ ?_
  · refine stepsOf_pbind _ _ _ (by simp [run_command_steps]) ?_
    intro w1 x1 _ h1
    refine stepsOf_pbind _ _ _ (by simp [run_command_steps, h1]) ?_
    intro w2 x2 _ h2
    refine stepsOf_pbind _ _ _ (by simp [run_command_steps, h2]) ?_
    intro w3 x3 _ h3
    refine stepsOf_pbind _ _ _ (by simp [run_command_steps, h3]) ?_
    intro w4 x4 _ h4
    simpa using h4
  · intro w1 _ h1
    simpa using h1

theorem setup_virtualenv_steps (env : Env) (w : World) :
    stepsOf (setup_virtualenv env w) = w.steps ++ [SetupStep.venv] := by
  unfold setup_virtualenv
  refine stepsOf_pbind _ _ _ ?_ ?_
  · split
    · refine stepsOf_pbind _ _ _ (by simp [run_command_steps]) ?_
      intro w1 x _ h1
      simpa using h1
    · simp
  · intro w1 x _ h1
    refine stepsOf_pbind _ _ _ (by simp [run_command_steps, h1]) ?_
    intro w2 y _ h2
    refine stepsOf_pbind _ _ _ ?_ ?_
    · split
      · refine stepsOf_pbind _ _ _ (by simp [run_command_steps, h2]) ?_
        intro w3 z _ h3
        simpa using h3
      · simpa using h2
    · intro w4 z _ h4
      simpa using h4

theorem stepsOf_pbind_take {α β : Type} (a : PyResult α) (f : World → α → PyResult β)
    (base : List SetupStep) (k : ℕ)
    (ha : stepsOf a = base ++ stepOrder.take k)
    (hf : ∀ w x, a = PyResult.ok w x → w.steps = base ++ stepOrder.take k →
      ∃ n : ℕ, stepsOf (f w x) = base ++ stepOrder.take n) :
    ∃ n : ℕ, stepsOf (pbind a f) = base ++ stepOrder.take n := by
  cases a with
  | ok w x => exact hf w x rfl (by simpa using ha)
  | exit w c => exact ⟨k, by simpa using ha⟩
  | exn w => exact ⟨k, by simpa using ha⟩

/-- Claim C8: the pipeline steps of `main` execute in the fixed order
tool check, identity configuration, local initialization, boilerplate
files, authentication, remote creation and push, environment setup — on
every run the step trace is an initial segment of that order, so no step
ever runs before one listed earlier. -/
theorem claim_C8_fixed_step_order (env : Env) (w : World) :
    ∃ n : ℕ, stepsOf (Setup.main env w) = w.steps ++ stepOrder.take n := by
  unfold Setup.main
  refine stepsOf_pbind_take _ _ _ 1 (by simp [check_gh_installed_steps, stepOrder]) ?_
  intro w1 ok _ h1
  cases ok with
  | false =>
      exact ⟨1, by simpa using h1⟩
  | true =>
      rw [if_neg (by decide)]
      refine stepsOf_pbind_take _ _ _ 2
        (by simp [setup_git_config_steps, h1, stepOrder]) ?_
      intro w2 x2 _ h2
      refine stepsOf_pbind_take _ _ _ 3
        (by simp [initialize_local_repo_steps, h2, stepOrder]) ?_
      intro w3 x3 _ h3
      refine stepsOf_pbind_take _ _ _ 4
        (by simp [create_basic_files_steps, h3, stepOrder]) ?_
      intro w4 x4 _ h4
      refine stepsOf_pbind_take _ _ _ 5
        (by simp [github_auth_steps, h4, stepOrder]) ?_
      intro w5 x5 _ h5
      refine stepsOf_pbind_take _ _ _ 6
        (by simp [create_github_repo_steps, h5, stepOrder]) ?_
      intro w6 x6 _ h6
      refine stepsOf_pbind_take _ _ _ 7
        (by simp [setup_virtualenv_steps, h6, stepOrder]) ?_
      intro w7 x7 _ h7
      exact ⟨7, by simpa using h7⟩
